import Mathlib

/-!
Verification development for the car-rental web application
(`app.py`, `models.py`, `config.py`).

The data model (`models.py`) is embedded as Lean structures; the database
is a record of four tables, each a list in row (insertion) order, matching
the default query order of the backing store.  Each mutating route of
`app.py` is embedded as a pure function from the database state and the
request inputs to a result value paired with the new database state.

Conventions of the embedding:
- Dates arrive through the forms in `%Y-%m-%d` format, so every datetime
  the booking logic sees is a midnight; a date is modelled as an `Int`
  day number, and `(end_date - start_date).days` is plain subtraction.
- Python floats (`price_per_day`, `total_price`, `hourly_rate`) are
  modelled as rationals; the claims are about the computed formulas.
- The form value `driver_id` is a raw string (or absent); the code stores
  it when truthy, so a booking carries `Option String`.  Route-level
  integer ids are compared against it via their decimal string, matching
  the store coercion of a numeric id string.
- Autoincrement primary keys are passed in as a fresh-id argument.
- Credential hashing is an external black box; it is modelled as an
  injective tag on the password, which no claim inspects.
-/

/-- A row of the `user` table (`models.py`, `User`). -/
structure User where
  id : Nat
  username : String
  email : String
  password : String
  role : String
deriving DecidableEq

/-- A row of the `car` table (`models.py`, `Car`). -/
structure Car where
  id : Nat
  brand : String
  model : String
  year : Int
  price_per_day : ℚ
  seats : Nat
  transmission : String
  fuel_type : String
  image : Option String
  available : Bool
  location : Option String
  latitude : Option ℚ
  longitude : Option ℚ
  client_id : Nat
deriving DecidableEq

/-- A row of the `driver` table (`models.py`, `Driver`); the purely
descriptive text columns (skills, languages, service areas, emergency
contacts, vehicle types, license metadata) are claim-irrelevant and
carried as a single extras record would add nothing, so the columns the
application logic reads are kept. -/
structure Driver where
  id : Nat
  name : String
  license_number : String
  experience : Int
  phone : String
  hourly_rate : ℚ
  available : Bool
  client_id : Nat
deriving DecidableEq

/-- A row of the `booking` table (`models.py`, `Booking`). -/
structure Booking where
  id : Nat
  user_id : Nat
  car_id : Nat
  driver_id : Option String
  start_date : Int
  end_date : Int
  total_price : ℚ
  status : String
  pickup_location : String
  dropoff_location : Option String
deriving DecidableEq

/-- The persistent store: the four tables, rows in insertion order. -/
structure DB where
  users : List User
  cars : List Car
  drivers : List Driver
  bookings : List Booking
deriving DecidableEq

/-- Python `str.lower()`: per-character lowercase.  Core
`String.toLower` is exactly `String.map Char.toLower`; this formulation
maps over the character list so that concrete instances evaluate. -/
def py_lower (s : String) : String :=
  String.mk (s.toList.map Char.toLower)

/-- Substring containment on character lists: Python `pat in s`. -/
def containsSub (s pat : List Char) : Bool :=
  match s with
  | [] => pat.isEmpty
  | _ :: rest => pat.isPrefixOf s || containsSub rest pat

/-- Substring containment on strings: Python `pattern in message`. -/
def str_contains (s pat : String) : Bool :=
  containsSub s.toList pat.toList

/-- The chatbot intent patterns, in the declared dictionary order
(`app.py`, `CarRentalChatbot.__init__`). -/
def patterns : List (String × List String) :=
  [("greeting", ["hello", "hi", "hey", "good morning", "good afternoon"]),
   ("booking", ["book", "booking", "reserve", "rent"]),
   ("pricing", ["price", "cost", "how much", "rate"]),
   ("availability", ["available", "in stock", "have cars"]),
   ("location", ["location", "where", "address"]),
   ("contact", ["contact", "phone", "email", "support"]),
   ("thanks", ["thank you", "thanks", "appreciate"])]

/-- The canned responses (`app.py`, `CarRentalChatbot.__init__`);
an unknown key falls through to the default, matching
`self.responses.get(intent, self.responses[default])`. -/
def responses (intent : String) : String :=
  if intent = "greeting" then
    "Hello! Welcome to Your Car! rental service. How can I help you today?"
  else if intent = "booking" then
    "You can book cars through our booking page. Would you like me to redirect you there?"
  else if intent = "pricing" then
    "Our prices start from $30 per day. The exact price depends on the car model and rental duration."
  else if intent = "availability" then
    "We have various cars available! Check our booking page to see all available vehicles."
  else if intent = "location" then
    "We have multiple pickup locations across the city. You can choose your preferred location during booking."
  else if intent = "contact" then
    "You can reach us at support@yourcar.com or call +1-555-0123. Visit our contact page for more details!"
  else if intent = "thanks" then
    "You\x27re welcome! Let me know if you need any other assistance."
  else
    "I\x27m here to help with car rentals! You can ask about booking, prices, availability, or contact information."

/-- The chatbot classifier (`app.py`, `CarRentalChatbot.get_response`):
lower-case the message, scan the intents in dictionary order, return the
response of the first intent one of whose patterns occurs as a substring,
else the default response. -/
def get_response (message : String) : String :=
  match patterns.find?
      (fun p => p.2.any (fun pat => str_contains (py_lower message) pat)) with
  | some p => responses p.1
  | none => responses ("default")

/-- Result of the `/book_car` route. -/
inductive BookResult
  | carNotFound
  | invalidPeriod
  | success (b : Booking)
deriving DecidableEq

/-- Python truthiness of an optional form string:
`driver_id if driver_id else None`. -/
def truthyForm (v : Option String) : Option String :=
  match v with
  | none => none
  | some s => if s = "" then none else some s

/-- The `/book_car` route (`app.py`, `book_car`): look up the car, reject
a rental period of less than one day, price it at `price_per_day` times
the day count, and persist one `pending` booking. `newId` is the
autoincrement key the store would assign. -/
def book_car (db : DB) (actorId newId : Nat) (car_id : Nat)
    (driver_id : Option String) (start_date end_date : Int)
    (pickup_location : String) : BookResult × DB :=
  match db.cars.find? (fun c => c.id == car_id) with
  | none => (BookResult.carNotFound, db)
  | some car =>
    let days : Int := end_date - start_date
    if days < 1 then (BookResult.invalidPeriod, db)
    else
      let total_price : ℚ := car.price_per_day * (days : ℚ)
      let b : Booking :=
        { id := newId
          user_id := actorId
          car_id := car_id
          driver_id := truthyForm driver_id
          start_date := start_date
          end_date := end_date
          total_price := total_price
          status := "pending"
          pickup_location := pickup_location
          dropoff_location := none }
      (BookResult.success b, { db with bookings := db.bookings ++ [b] })

/-- Result of the `/register` route. -/
inductive RegisterResult
  | usernameExists
  | emailExists
  | created (u : User)
deriving DecidableEq

/-- Credential hashing is an external black box (werkzeug); modelled as an
injective tag, never inspected by any claim. -/
def generate_password_hash (password : String) : String :=
  "pbkdf2$" ++ password

/-- The `/register` route (`app.py`, `register`), POST branch: the role is
`request.form.get(role, user)` -- whatever string the form supplies,
defaulting to `"user"` when absent; reject a taken username, then a taken
email, else persist the new user. `newId` is the autoincrement key. -/
def register (db : DB) (newId : Nat) (username email password : String)
    (roleForm : Option String) : RegisterResult × DB :=
  let role := roleForm.getD ("user")
  if (db.users.find? (fun u => u.username == username)).isSome then
    (RegisterResult.usernameExists, db)
  else if (db.users.find? (fun u => u.email == email)).isSome then
    (RegisterResult.emailExists, db)
  else
    let new_user : User :=
      { id := newId
        username := username
        email := email
        password := generate_password_hash password
        role := role }
    (RegisterResult.created new_user, { db with users := db.users ++ [new_user] })

/-- Result of the `/delete_user` route. -/
inductive DeleteUserResult
  | adminRequired
  | notFound
  | selfDelete
  | adminProtected
  | deleted
deriving DecidableEq

/-- The `/delete_user` route (`app.py`, `delete_user`): admin only; an
admin may not delete themself nor another admin; otherwise remove the
target user after removing all their cars, drivers and bookings. -/
def delete_user (actor : User) (user_id : Nat) (db : DB) :
    DeleteUserResult × DB :=
  if actor.role ≠ "admin" then (DeleteUserResult.adminRequired, db)
  else
    match db.users.find? (fun u => u.id == user_id) with
    | none => (DeleteUserResult.notFound, db)
    | some user =>
      if user.id == actor.id then (DeleteUserResult.selfDelete, db)
      else if user.role == "admin" then (DeleteUserResult.adminProtected, db)
      else
        (DeleteUserResult.deleted,
          { users := db.users.filter (fun u => !(u.id == user.id))
            cars := db.cars.filter (fun c => !(c.client_id == user.id))
            drivers := db.drivers.filter (fun d => !(d.client_id == user.id))
            bookings := db.bookings.filter (fun b => !(b.user_id == user.id)) })

/-- Result of the `/delete_car`, `/delete_booking`, `/delete_driver`
routes. -/
inductive DeleteResult
  | notFound
  | forbidden
  | deleted
deriving DecidableEq

/-- The `/delete_car` route (`app.py`, `delete_car`): only admin or the
owning client may delete; the cascade removes every booking of the car
first, then the car. -/
def delete_car (actor : User) (car_id : Nat) (db : DB) : DeleteResult × DB :=
  match db.cars.find? (fun c => c.id == car_id) with
  | none => (DeleteResult.notFound, db)
  | some car =>
    if actor.role == "admin" || car.client_id == actor.id then
      (DeleteResult.deleted,
        { db with
            bookings := db.bookings.filter (fun b => !(b.car_id == car_id))
            cars := db.cars.filter (fun c => !(c.id == car.id)) })
    else (DeleteResult.forbidden, db)

/-- The `/delete_booking` route (`app.py`, `delete_booking`): only admin
or the booking owner may delete; a leaf deletion, no cascade. -/
def delete_booking (actor : User) (booking_id : Nat) (db : DB) :
    DeleteResult × DB :=
  match db.bookings.find? (fun b => b.id == booking_id) with
  | none => (DeleteResult.notFound, db)
  | some booking =>
    if actor.role == "admin" || booking.user_id == actor.id then
      (DeleteResult.deleted,
        { db with bookings := db.bookings.filter (fun b => !(b.id == booking.id)) })
    else (DeleteResult.forbidden, db)

/-- The `/delete_driver` route (`app.py`, `delete_driver`): only admin or
the owning client may delete; every booking referencing the driver is
detached (`driver_id` set to null), then the driver row is removed. -/
def delete_driver (actor : User) (driver_id : Nat) (db : DB) :
    DeleteResult × DB :=
  match db.drivers.find? (fun d => d.id == driver_id) with
  | none => (DeleteResult.notFound, db)
  | some driver =>
    if actor.role == "admin" || driver.client_id == actor.id then
      (DeleteResult.deleted,
        { db with
            bookings := db.bookings.map (fun b =>
              if b.driver_id == some (toString driver_id) then
                { b with driver_id := none }
              else b)
            drivers := db.drivers.filter (fun d => !(d.id == driver.id)) })
    else (DeleteResult.forbidden, db)

/-- Result of the `/update_booking_status` route. -/
inductive UpdateStatusResult
  | notFound
  | accessDenied
  | updated
deriving DecidableEq

/-- The `/update_booking_status` route (`app.py`, `update_booking_status`):
look up the booking, fetch the FIRST driver profile owned by the actor
(`Driver.query.filter_by(client_id=current_user.id).first()`), deny unless
that profile exists and its id equals the booking driver id, else store
the caller-supplied status string unchecked. -/
def update_booking_status (actor : User) (booking_id : Nat)
    (new_status : String) (db : DB) : UpdateStatusResult × DB :=
  match db.bookings.find? (fun b => b.id == booking_id) with
  | none => (UpdateStatusResult.notFound, db)
  | some booking =>
    match db.drivers.find? (fun d => d.client_id == actor.id) with
    | none => (UpdateStatusResult.accessDenied, db)
    | some driver =>
      if booking.driver_id ≠ some (toString driver.id) then
        (UpdateStatusResult.accessDenied, db)
      else
        (UpdateStatusResult.updated,
          { db with
              bookings := db.bookings.map (fun b =>
                if b.id == booking.id then { b with status := new_status }
                else b) })

/-- Sample row mirroring the seeded admin account of `app.py`. -/
def adminUser : User :=
  { id := 1, username := "admin", email := "admin@yourcar.com",
    password := generate_password_hash ("admin123"), role := "admin" }

/-- Sample row mirroring the seeded client account of `app.py`. -/
def clientOne : User :=
  { id := 2, username := "client1", email := "client@yourcar.com",
    password := generate_password_hash ("client123"), role := "client" }

/-- Sample row mirroring the seeded regular user account of `app.py`. -/
def userOne : User :=
  { id := 3, username := "user1", email := "user@yourcar.com",
    password := generate_password_hash ("user123"), role := "user" }

/-- A second admin account, for the admin-protection checks. -/
def adminTwo : User :=
  { id := 4, username := "admin2", email := "admin2@yourcar.com",
    password := generate_password_hash ("admin456"), role := "admin" }

/-- A second client account, owning a single driver profile. -/
def clientTwo : User :=
  { id := 5, username := "client2", email := "client2@yourcar.com",
    password := generate_password_hash ("client456"), role := "client" }

/-- A car listed by `clientOne` at fifty per day. -/
def carX : Car :=
  { id := 10, brand := "Toyota", model := "Corolla", year := 2020,
    price_per_day := 50, seats := 5, transmission := "Automatic",
    fuel_type := "Petrol", image := none, available := true,
    location := none, latitude := none, longitude := none, client_id := 2 }

/-- First driver profile of `clientOne` (first in insertion order). -/
def driverOne : Driver :=
  { id := 1, name := "Dan", license_number := "LIC1", experience := 5,
    phone := "555-0001", hourly_rate := 25, available := true, client_id := 2 }

/-- Second driver profile of `clientOne`. -/
def driverTwo : Driver :=
  { id := 2, name := "Eve", license_number := "LIC2", experience := 3,
    phone := "555-0002", hourly_rate := 25, available := true, client_id := 2 }

/-- The sole driver profile of `clientTwo`. -/
def driverThree : Driver :=
  { id := 3, name := "Fay", license_number := "LIC3", experience := 2,
    phone := "555-0003", hourly_rate := 25, available := true, client_id := 5 }

/-- A booking by `userOne` of `carX`, assigned to `driverTwo`. -/
def bookingOne : Booking :=
  { id := 100, user_id := 3, car_id := 10, driver_id := some ("2"),
    start_date := 0, end_date := 3, total_price := 150, status := "pending",
    pickup_location := "New York", dropoff_location := none }

/-- A booking by `userOne` of `carX`, assigned to `driverThree`. -/
def bookingTwo : Booking :=
  { id := 101, user_id := 3, car_id := 10, driver_id := some ("3"),
    start_date := 0, end_date := 3, total_price := 150, status := "pending",
    pickup_location := "New York", dropoff_location := none }

/-- A concrete store for the closed instantiations. -/
def sampleDB : DB :=
  { users := [adminUser, clientOne, userOne, adminTwo, clientTwo],
    cars := [carX],
    drivers := [driverOne, driverTwo, driverThree],
    bookings := [bookingOne, bookingTwo] }

/-- C1: when the referenced car exists and `endDate > startDate`, the
booking route persists a booking whose `total_price` is exactly
`price_per_day` times the integer day count `(end_date - start_date)`,
for every non-negative daily price. -/
theorem C1_total_price_exact (db : DB) (actorId newId car_id : Nat)
    (driver_id : Option String) (start_date end_date : Int)
    (pickup_location : String) (car : Car)
    (hcar : db.cars.find? (fun c => c.id == car_id) = some car)
    ( _hprice : 0 ≤ car.price_per_day)
    (hdates : start_date < end_date) :
    ∃ b : Booking,
      book_car db actorId newId car_id driver_id start_date end_date
          pickup_location
        = (BookResult.success b, { db with bookings := db.bookings ++ [b] })
      ∧ b.total_price
          = car.price_per_day * ((end_date - start_date : Int) : ℚ) := by
  have hnot : ¬ (end_date - start_date < 1) := by omega
  unfold book_car
  rw [hcar]
  simp only [if_neg hnot]
  exact ⟨_, rfl, rfl⟩

/-- Closed instantiation of `C1_total_price_exact`: booking `carX` for
three days at fifty per day. -/
theorem C1_total_price_exact_witness :
    ∃ b : Booking,
      book_car sampleDB 3 200 10 none 0 3 ("New York")
        = (BookResult.success b,
            { sampleDB with bookings := sampleDB.bookings ++ [b] })
      ∧ b.total_price = carX.price_per_day * ((3 - 0 : Int) : ℚ) :=
  C1_total_price_exact sampleDB 3 200 10 none 0 3 ("New York") carX
    (by rfl) (by norm_num [carX]) (by norm_num)

/-- C6: when the referenced car exists and `endDate <= startDate`, the
booking route answers the invalid-rental-period failure and leaves the
store unchanged, for any prices. -/
theorem C6_invalid_period (db : DB) (actorId newId car_id : Nat)
    (driver_id : Option String) (start_date end_date : Int)
    (pickup_location : String) (car : Car)
    (hcar : db.cars.find? (fun c => c.id == car_id) = some car)
    (hdates : end_date ≤ start_date) :
    book_car db actorId newId car_id driver_id start_date end_date
        pickup_location
      = (BookResult.invalidPeriod, db) := by
  have h1 : end_date - start_date < 1 := by omega
  unfold book_car
  rw [hcar]
  simp only [if_pos h1]

/-- Closed instantiation of `C6_invalid_period`: a same-day rental is
rejected. -/
theorem C6_invalid_period_witness :
    book_car sampleDB 3 201 10 none 5 5 ("New York")
      = (BookResult.invalidPeriod, sampleDB) :=
  C6_invalid_period sampleDB 3 201 10 none 5 5 ("New York") carX
    (by rfl) (by norm_num)

/-- C8: every successful booking appends exactly one new row, that row
has status `pending`, and its driver reference is set precisely when the
form supplied a non-empty driver id. -/
theorem C8_booking_shape (db : DB) (actorId newId car_id : Nat)
    (driver_id : Option String) (start_date end_date : Int)
    (pickup_location : String) (b : Booking) (db2 : DB)
    (h : book_car db actorId newId car_id driver_id start_date end_date
          pickup_location = (BookResult.success b, db2)) :
    db2.bookings = db.bookings ++ [b]
    ∧ b.status = "pending"
    ∧ (b.driver_id ≠ none ↔ ∃ s, driver_id = some s ∧ s ≠ "")
    ∧ (∀ s, driver_id = some s → s ≠ "" → b.driver_id = some s) := by
  cases hcar : db.cars.find? (fun c => c.id == car_id) with
  | none =>
    have hv : book_car db actorId newId car_id driver_id start_date end_date
        pickup_location = (BookResult.carNotFound, db) := by
      unfold book_car
      rw [hcar]
    rw [hv] at h
    simp at h
  | some car =>
    by_cases hd : end_date - start_date < 1
    · have hv : book_car db actorId newId car_id driver_id start_date end_date
          pickup_location = (BookResult.invalidPeriod, db) := by
        unfold book_car
        rw [hcar]
        simp only [if_pos hd]
      rw [hv] at h
      simp at h
    · have hv : book_car db actorId newId car_id driver_id start_date end_date
          pickup_location
          = (BookResult.success
              { id := newId
                user_id := actorId
                car_id := car_id
                driver_id := truthyForm driver_id
                start_date := start_date
                end_date := end_date
                total_price := car.price_per_day
                  * ((end_date - start_date : Int) : ℚ)
                status := "pending"
                pickup_location := pickup_location
                dropoff_location := none },
              { db with bookings := db.bookings ++
                  [{ id := newId
                     user_id := actorId
                     car_id := car_id
                     driver_id := truthyForm driver_id
                     start_date := start_date
                     end_date := end_date
                     total_price := car.price_per_day
                       * ((end_date - start_date : Int) : ℚ)
                     status := "pending"
                     pickup_location := pickup_location
                     dropoff_location := none }] }) := by
        unfold book_car
        rw [hcar]
        simp only [if_neg hd]
      rw [hv] at h
      rw [Prod.mk.injEq] at h
      obtain ⟨h1, h2⟩ := h
      injection h1 with hb
      subst hb
      subst h2
      refine ⟨rfl, rfl, ?_, ?_⟩
      · cases driver_id with
        | none => simp [truthyForm]
        | some s =>
          by_cases hs : s = ""
          · subst hs
            simp [truthyForm]
          · simp [truthyForm, hs]
      · intro s hs hne
        subst hs
        simp only [truthyForm, if_neg hne]

/-- The booking row produced by the closed `C8` instantiation. -/
def bookingNew : Booking :=
  { id := 202, user_id := 3, car_id := 10, driver_id := some ("2"),
    start_date := 0, end_date := 3,
    total_price := carX.price_per_day * ((3 - 0 : Int) : ℚ),
    status := "pending", pickup_location := "New York",
    dropoff_location := none }

/-- Closed instantiation of `C8_booking_shape`: a booking with driver id
string `"2"` supplied. -/
theorem C8_booking_shape_witness :
    ({ sampleDB with bookings := sampleDB.bookings ++ [bookingNew] } : DB).bookings
      = sampleDB.bookings ++ [bookingNew]
    ∧ bookingNew.status = "pending"
    ∧ (bookingNew.driver_id ≠ none ↔
        ∃ s, (some ("2") : Option String) = some s ∧ s ≠ "")
    ∧ (∀ s, (some ("2") : Option String) = some s → s ≠ "" →
        bookingNew.driver_id = some s) :=
  C8_booking_shape sampleDB 3 202 10 (some ("2")) 0 3 ("New York")
    bookingNew { sampleDB with bookings := sampleDB.bookings ++ [bookingNew] }
    (by rfl)

/-- C2: for an admin actor, deletion of a user leaves the store unchanged
when the target is the actor themself or another admin, and the target
row with its dependent cars, drivers and bookings is removed only when
the target exists, is not the actor and is not an admin. -/
theorem C2_delete_user_guard (actor : User) (uid : Nat) (db : DB)
    (hadmin : actor.role = "admin") :
    (∀ user, db.users.find? (fun u => u.id == uid) = some user →
        user.id = actor.id ∨ user.role = "admin" →
        (delete_user actor uid db).2 = db
        ∧ (delete_user actor uid db).1 ≠ DeleteUserResult.deleted)
    ∧ ((delete_user actor uid db).1 = DeleteUserResult.deleted →
        ∃ user, db.users.find? (fun u => u.id == uid) = some user
          ∧ user.id ≠ actor.id ∧ user.role ≠ "admin"
          ∧ user ∉ (delete_user actor uid db).2.users
          ∧ (∀ c ∈ db.cars, c.client_id = user.id →
              c ∉ (delete_user actor uid db).2.cars)
          ∧ (∀ d ∈ db.drivers, d.client_id = user.id →
              d ∉ (delete_user actor uid db).2.drivers)
          ∧ (∀ b ∈ db.bookings, b.user_id = user.id →
              b ∉ (delete_user actor uid db).2.bookings)) := by
  have hne : ¬ actor.role ≠ "admin" := by simp [hadmin]
  cases hfind : db.users.find? (fun u => u.id == uid) with
  | none =>
    have hv : delete_user actor uid db = (DeleteUserResult.notFound, db) := by
      unfold delete_user
      rw [if_neg hne, hfind]
    constructor
    · intro user hu
      exact absurd hu (by simp)
    · intro habs
      rw [hv] at habs
      simp at habs
  | some user =>
    by_cases hself : user.id = actor.id
    · have hv : delete_user actor uid db = (DeleteUserResult.selfDelete, db) := by
        unfold delete_user
        rw [if_neg hne, hfind]
        simp [hself]
      constructor
      · intro user2 hu2 _
        rw [hv]
        exact ⟨rfl, by simp⟩
      · intro habs
        rw [hv] at habs
        simp at habs
    · by_cases hrole : user.role = "admin"
      · have hv : delete_user actor uid db
            = (DeleteUserResult.adminProtected, db) := by
          unfold delete_user
          rw [if_neg hne, hfind]
          simp [hself, hrole]
        constructor
        · intro user2 hu2 _
          rw [hv]
          exact ⟨rfl, by simp⟩
        · intro habs
          rw [hv] at habs
          simp at habs
      · have hv : delete_user actor uid db
            = (DeleteUserResult.deleted,
               { users := db.users.filter (fun u => !(u.id == user.id))
                 cars := db.cars.filter (fun c => !(c.client_id == user.id))
                 drivers := db.drivers.filter (fun d => !(d.client_id == user.id))
                 bookings :=
                   db.bookings.filter (fun b => !(b.user_id == user.id)) }) := by
          unfold delete_user
          rw [if_neg hne, hfind]
          simp [hself, hrole]
        constructor
        · intro user2 hu2 hbad
          injection hu2 with h
          subst h
          cases hbad with
          | inl h => exact absurd h hself
          | inr h => exact absurd h hrole
        · intro _
          refine ⟨user, rfl, hself, hrole, ?_, ?_, ?_, ?_⟩
          · rw [hv]
            simp [List.mem_filter]
          · intro c hc hcid
            rw [hv]
            simp [List.mem_filter, hcid]
          · intro d hd hdid
            rw [hv]
            simp [List.mem_filter, hdid]
          · intro b hb hbid
            rw [hv]
            simp [List.mem_filter, hbid]

/-- Closed instantiation of `C2_delete_user_guard`: the seeded admin
attempting to delete a second admin changes nothing. -/
theorem C2_delete_user_guard_witness :
    (delete_user adminUser 4 sampleDB).2 = sampleDB
    ∧ (delete_user adminUser 4 sampleDB).1 ≠ DeleteUserResult.deleted :=
  (C2_delete_user_guard adminUser 4 sampleDB (by rfl)).1 adminTwo
    (by rfl) (Or.inr (by rfl))

/-- C3: for an existing car, driver or booking, deletion succeeds exactly
when the actor is an admin or owns the resource (`client_id` for cars and
drivers, `user_id` for bookings); otherwise the route answers forbidden
and the store is unchanged. -/
theorem C3_ownership_guard :
    (∀ (actor : User) (cid : Nat) (db : DB) (car : Car),
        db.cars.find? (fun c => c.id == cid) = some car →
        (((delete_car actor cid db).1 = DeleteResult.deleted)
          ↔ (actor.role = "admin" ∨ car.client_id = actor.id))
        ∧ (¬(actor.role = "admin" ∨ car.client_id = actor.id) →
            delete_car actor cid db = (DeleteResult.forbidden, db)))
    ∧ (∀ (actor : User) (did : Nat) (db : DB) (driver : Driver),
        db.drivers.find? (fun d => d.id == did) = some driver →
        (((delete_driver actor did db).1 = DeleteResult.deleted)
          ↔ (actor.role = "admin" ∨ driver.client_id = actor.id))
        ∧ (¬(actor.role = "admin" ∨ driver.client_id = actor.id) →
            delete_driver actor did db = (DeleteResult.forbidden, db)))
    ∧ (∀ (actor : User) (bid : Nat) (db : DB) (booking : Booking),
        db.bookings.find? (fun b => b.id == bid) = some booking →
        (((delete_booking actor bid db).1 = DeleteResult.deleted)
          ↔ (actor.role = "admin" ∨ booking.user_id = actor.id))
        ∧ (¬(actor.role = "admin" ∨ booking.user_id = actor.id) →
            delete_booking actor bid db = (DeleteResult.forbidden, db))) := by
  refine ⟨?_, ?_, ?_⟩
  · intro actor cid db car hfind
    by_cases hauth : actor.role = "admin" ∨ car.client_id = actor.id
    · have hcond : (actor.role == "admin" || car.client_id == actor.id) = true := by
        rcases hauth with h | h <;> simp [h]
      have hv : (delete_car actor cid db).1 = DeleteResult.deleted := by
        unfold delete_car
        rw [hfind]
        simp [hcond]
      exact ⟨⟨fun _ => hauth, fun _ => hv⟩, fun h => absurd hauth h⟩
    · push_neg at hauth
      have hcond : (actor.role == "admin" || car.client_id == actor.id) = false := by
        simp [hauth.1, hauth.2]
      have hv : delete_car actor cid db = (DeleteResult.forbidden, db) := by
        unfold delete_car
        rw [hfind]
        simp [hcond]
      rw [hv]
      simp [hauth.1, hauth.2]
  · intro actor did db driver hfind
    by_cases hauth : actor.role = "admin" ∨ driver.client_id = actor.id
    · have hcond : (actor.role == "admin" || driver.client_id == actor.id) = true := by
        rcases hauth with h | h <;> simp [h]
      have hv : (delete_driver actor did db).1 = DeleteResult.deleted := by
        unfold delete_driver
        rw [hfind]
        simp [hcond]
      exact ⟨⟨fun _ => hauth, fun _ => hv⟩, fun h => absurd hauth h⟩
    · push_neg at hauth
      have hcond : (actor.role == "admin" || driver.client_id == actor.id) = false := by
        simp [hauth.1, hauth.2]
      have hv : delete_driver actor did db = (DeleteResult.forbidden, db) := by
        unfold delete_driver
        rw [hfind]
        simp [hcond]
      rw [hv]
      simp [hauth.1, hauth.2]
  · intro actor bid db booking hfind
    by_cases hauth : actor.role = "admin" ∨ booking.user_id = actor.id
    · have hcond : (actor.role == "admin" || booking.user_id == actor.id) = true := by
        rcases hauth with h | h <;> simp [h]
      have hv : (delete_booking actor bid db).1 = DeleteResult.deleted := by
        unfold delete_booking
        rw [hfind]
        simp [hcond]
      exact ⟨⟨fun _ => hauth, fun _ => hv⟩, fun h => absurd hauth h⟩
    · push_neg at hauth
      have hcond : (actor.role == "admin" || booking.user_id == actor.id) = false := by
        simp [hauth.1, hauth.2]
      have hv : delete_booking actor bid db = (DeleteResult.forbidden, db) := by
        unfold delete_booking
        rw [hfind]
        simp [hcond]
      rw [hv]
      simp [hauth.1, hauth.2]

/-- Closed instantiation of `C3_ownership_guard`: a plain user deleting
another client listing is refused with the store unchanged. -/
theorem C3_ownership_guard_witness :
    delete_car userOne 10 sampleDB = (DeleteResult.forbidden, sampleDB) :=
  (C3_ownership_guard.1 userOne 10 sampleDB carX (by rfl)).2 (by decide)

/-- C4: an authorized car deletion removes every booking referencing the
car and the car itself; an authorized driver deletion detaches the driver
reference on every booking referencing it, keeps all bookings (same
count, other fields unchanged) and removes the driver row. -/
theorem C4_cascade_effects :
    (∀ (actor : User) (cid : Nat) (db : DB) (car : Car),
        db.cars.find? (fun c => c.id == cid) = some car →
        (actor.role = "admin" ∨ car.client_id = actor.id) →
        (delete_car actor cid db).1 = DeleteResult.deleted
        ∧ (∀ b ∈ db.bookings, b.car_id = cid →
            b ∉ (delete_car actor cid db).2.bookings)
        ∧ (∀ b ∈ db.bookings, b.car_id ≠ cid →
            b ∈ (delete_car actor cid db).2.bookings)
        ∧ car ∉ (delete_car actor cid db).2.cars)
    ∧ (∀ (actor : User) (did : Nat) (db : DB) (driver : Driver),
        db.drivers.find? (fun d => d.id == did) = some driver →
        (actor.role = "admin" ∨ driver.client_id = actor.id) →
        (delete_driver actor did db).1 = DeleteResult.deleted
        ∧ (delete_driver actor did db).2.bookings.length = db.bookings.length
        ∧ (∀ b ∈ db.bookings, b.driver_id = some (toString did) →
            { b with driver_id := none }
              ∈ (delete_driver actor did db).2.bookings)
        ∧ (∀ b ∈ db.bookings, b.driver_id ≠ some (toString did) →
            b ∈ (delete_driver actor did db).2.bookings)
        ∧ driver ∉ (delete_driver actor did db).2.drivers) := by
  constructor
  · intro actor cid db car hfind hauth
    have hcond : (actor.role == "admin" || car.client_id == actor.id) = true := by
      rcases hauth with h | h <;> simp [h]
    have hid : car.id = cid := by
      have := List.find?_some hfind
      simpa using this
    have hv : delete_car actor cid db
        = (DeleteResult.deleted,
           { db with
               bookings := db.bookings.filter (fun b => !(b.car_id == cid))
               cars := db.cars.filter (fun c => !(c.id == car.id)) }) := by
      unfold delete_car
      rw [hfind]
      simp [hcond]
    refine ⟨by rw [hv], ?_, ?_, ?_⟩
    · intro b hb hbc
      rw [hv]
      simp [List.mem_filter, hbc]
    · intro b hb hbc
      rw [hv]
      simp [List.mem_filter, hbc, hb]
    · rw [hv]
      simp [List.mem_filter]
  · intro actor did db driver hfind hauth
    have hcond : (actor.role == "admin" || driver.client_id == actor.id) = true := by
      rcases hauth with h | h <;> simp [h]
    have hv : delete_driver actor did db
        = (DeleteResult.deleted,
           { db with
               bookings := db.bookings.map (fun b =>
                 if b.driver_id == some (toString did) then
                   { b with driver_id := none }
                 else b)
               drivers := db.drivers.filter (fun d => !(d.id == driver.id)) }) := by
      unfold delete_driver
      rw [hfind]
      simp [hcond]
    refine ⟨by rw [hv], ?_, ?_, ?_, ?_⟩
    · rw [hv]
      simp [List.length_map]
    · intro b hb hbd
      rw [hv]
      simp only [List.mem_map]
      refine ⟨b, hb, ?_⟩
      simp [hbd]
    · intro b hb hbd
      rw [hv]
      simp only [List.mem_map]
      refine ⟨b, hb, ?_⟩
      simp [hbd]
    · rw [hv]
      simp [List.mem_filter]

/-- Closed instantiation of `C4_cascade_effects`: the seeded admin
deleting the sample car removes its bookings and the car. -/
theorem C4_cascade_effects_witness :
    (delete_car adminUser 10 sampleDB).1 = DeleteResult.deleted
    ∧ (∀ b ∈ sampleDB.bookings, b.car_id = 10 →
        b ∉ (delete_car adminUser 10 sampleDB).2.bookings)
    ∧ (∀ b ∈ sampleDB.bookings, b.car_id ≠ 10 →
        b ∈ (delete_car adminUser 10 sampleDB).2.bookings)
    ∧ carX ∉ (delete_car adminUser 10 sampleDB).2.cars :=
  C4_cascade_effects.1 adminUser 10 sampleDB carX (by rfl) (Or.inl (by rfl))

/-- Counterexample to C5 as stated: `clientOne` owns two driver profiles
and `bookingOne` is assigned to the second one, so the actor does own a
driver profile whose id equals the booking driver id; yet the route,
which consults only the first owned profile, denies the update and
leaves the store unchanged. -/
theorem C5_counterexample :
    (∃ d ∈ sampleDB.drivers, d.client_id = clientOne.id
        ∧ bookingOne.driver_id = some (toString d.id))
    ∧ sampleDB.bookings.find? (fun b => b.id == 100) = some bookingOne
    ∧ update_booking_status clientOne 100 ("confirmed") sampleDB
        = (UpdateStatusResult.accessDenied, sampleDB) := by
  refine ⟨⟨driverTwo, ?_, rfl, rfl⟩, rfl, rfl⟩
  exact List.mem_cons_of_mem _ (List.mem_cons_self _ _)

/-- C5 (amended): a status update succeeds exactly when the FIRST driver
profile owned by the actor, in table order, exists and its id equals the
booking driver id; otherwise the route denies and the store is
unchanged.  An actor whose matching profile is not their first owned
profile is denied. -/
theorem C5_first_driver_guard (actor : User) (booking_id : Nat)
    (new_status : String) (db : DB) (booking : Booking)
    (hfind : db.bookings.find? (fun b => b.id == booking_id) = some booking) :
    (((update_booking_status actor booking_id new_status db).1
        = UpdateStatusResult.updated)
      ↔ (∃ driver, db.drivers.find? (fun d => d.client_id == actor.id)
            = some driver
          ∧ booking.driver_id = some (toString driver.id)))
    ∧ ((update_booking_status actor booking_id new_status db).1
          ≠ UpdateStatusResult.updated →
        (update_booking_status actor booking_id new_status db).2 = db) := by
  cases hdrv : db.drivers.find? (fun d => d.client_id == actor.id) with
  | none =>
    have hv : update_booking_status actor booking_id new_status db
        = (UpdateStatusResult.accessDenied, db) := by
      unfold update_booking_status
      rw [hfind, hdrv]
    rw [hv]
    constructor
    · constructor
      · intro h
        simp at h
      · rintro ⟨driver, hd, _⟩
        exact absurd hd (by simp)
    · intro _
      rfl
  | some driver =>
    by_cases hmatch : booking.driver_id = some (toString driver.id)
    · have hv : update_booking_status actor booking_id new_status db
          = (UpdateStatusResult.updated,
             { db with bookings := db.bookings.map (fun b =>
                 if b.id == booking.id then { b with status := new_status }
                 else b) }) := by
        unfold update_booking_status
        rw [hfind, hdrv]
        simp [hmatch]
      rw [hv]
      constructor
      · constructor
        · intro _
          exact ⟨driver, rfl, hmatch⟩
        · intro _
          rfl
      · intro habs
        exact absurd rfl habs
    · have hv : update_booking_status actor booking_id new_status db
          = (UpdateStatusResult.accessDenied, db) := by
        unfold update_booking_status
        rw [hfind, hdrv]
        simp [hmatch]
      rw [hv]
      constructor
      · constructor
        · intro h
          simp at h
        · rintro ⟨driver2, hd2, hm2⟩
          injection hd2 with h
          subst h
          exact absurd hm2 hmatch
      · intro _
        rfl

/-- Closed instantiation of `C5_first_driver_guard`: `clientTwo` owns a
single driver profile matching `bookingTwo`, so the guard is an
equivalence there. -/
theorem C5_first_driver_guard_witness :
    (((update_booking_status clientTwo 101 ("confirmed") sampleDB).1
        = UpdateStatusResult.updated)
      ↔ (∃ driver, sampleDB.drivers.find?
            (fun d => d.client_id == clientTwo.id) = some driver
          ∧ bookingTwo.driver_id = some (toString driver.id)))
    ∧ ((update_booking_status clientTwo 101 ("confirmed") sampleDB).1
          ≠ UpdateStatusResult.updated →
        (update_booking_status clientTwo 101 ("confirmed") sampleDB).2
          = sampleDB) :=
  C5_first_driver_guard clientTwo 101 ("confirmed") sampleDB bookingTwo
    (by rfl)

/-- C7: with a fresh username and email, registration persists exactly
the role string the form supplied (defaulting to `"user"` when absent),
with no restriction on its value -- in particular `"admin"` passes. -/
theorem C7_register_role (db : DB) (newId : Nat)
    (username email password : String) (roleForm : Option String)
    (hu : db.users.find? (fun u => u.username == username) = none)
    (he : db.users.find? (fun u => u.email == email) = none) :
    ∃ u : User,
      register db newId username email password roleForm
        = (RegisterResult.created u, { db with users := db.users ++ [u] })
      ∧ u.role = roleForm.getD ("user")
      ∧ u.username = username ∧ u.email = email := by
  unfold register
  rw [hu, he]
  simp only [Option.isSome_none, Bool.false_eq_true, if_false]
  exact ⟨_, rfl, rfl, rfl, rfl⟩

/-- Closed instantiation of `C7_register_role`: an anonymous caller
supplying `role=admin` obtains an admin account. -/
theorem C7_register_role_witness :
    ∃ u : User,
      register sampleDB 6 ("mallory") ("mallory@example.com") ("pw123")
          (some ("admin"))
        = (RegisterResult.created u,
           { sampleDB with users := sampleDB.users ++ [u] })
      ∧ u.role = (some ("admin")).getD ("user")
      ∧ u.username = "mallory" ∧ u.email = "mallory@example.com" :=
  C7_register_role sampleDB 6 ("mallory") ("mallory@example.com") ("pw123")
    (some ("admin")) (by rfl) (by rfl)

/-- A `find?` over a list returns the element at the first index whose
test succeeds, when every earlier index fails the test. -/
theorem find?_first_index {α : Type} (l : List α) (p : α → Bool) :
    ∀ (i : Nat) (h : i < l.length),
      p (l.get ⟨i, h⟩) = true →
      (∀ (j : Nat) (hj : j < l.length), j < i → p (l.get ⟨j, hj⟩) = false) →
      l.find? p = some (l.get ⟨i, h⟩) := by
  induction l with
  | nil =>
    intro i h
    exact absurd h (by simp)
  | cons a t ih =>
    intro i h hp hbefore
    cases i with
    | zero =>
      exact List.find?_cons_of_pos _ hp
    | succ n =>
      have ha : p a = false := hbefore 0 (by simp) (by omega)
      rw [List.find?_cons_of_neg _ (by simp [ha])]
      have hn : n < t.length := by simpa using h
      have hpn : p (t.get ⟨n, hn⟩) = true := by simpa using hp
      have hbn : ∀ (j : Nat) (hj : j < t.length), j < n →
          p (t.get ⟨j, hj⟩) = false := by
        intro j hj hji
        have := hbefore (j + 1) (by simpa using hj) (by omega)
        simpa using this
      simpa using ih n hn hpn hbn

/-- C9: the chatbot classifier is a pure function of the lower-cased
message: the pricing example classifies to pricing, a message containing
no known keyword answers the default response, two messages with the
same lower-casing classify alike, and the first intent in the declared
order with a substring match wins. -/
theorem C9_chatbot_classifier :
    get_response ("How much does it cost?") = responses ("pricing")
    ∧ (∀ m : String,
        (∀ p ∈ patterns, ∀ pat ∈ p.2,
          str_contains (py_lower m) pat = false) →
        get_response m = responses ("default"))
    ∧ (∀ m1 m2 : String, py_lower m1 = py_lower m2 →
        get_response m1 = get_response m2)
    ∧ (∀ (m : String) (i : Nat) (h : i < patterns.length),
        ((patterns.get ⟨i, h⟩).2.any
          (fun pat => str_contains (py_lower m) pat)) = true →
        (∀ (j : Nat) (hj : j < patterns.length), j < i →
          ((patterns.get ⟨j, hj⟩).2.any
            (fun pat => str_contains (py_lower m) pat)) = false) →
        get_response m = responses (patterns.get ⟨i, h⟩).1) := by
  refine ⟨by decide, ?_, ?_, ?_⟩
  · intro m hm
    unfold get_response
    have hnone : patterns.find?
        (fun p => p.2.any (fun pat => str_contains (py_lower m) pat))
          = none := by
      rw [List.find?_eq_none]
      intro p hp hc
      rw [List.any_eq_true] at hc
      obtain ⟨pat, hpat, hcc⟩ := hc
      rw [hm p hp pat hpat] at hcc
      simp at hcc
    rw [hnone]
  · intro m1 m2 hm
    unfold get_response
    rw [hm]
  · intro m i h hp hbefore
    unfold get_response
    rw [find?_first_index patterns _ i h hp hbefore]

/-- Closed instantiation of `C9_chatbot_classifier`: a keyword-free
message falls to the default response. -/
theorem C9_chatbot_classifier_witness :
    get_response ("qwerty") = responses ("default") :=
  C9_chatbot_classifier.2.1 ("qwerty") (by decide)

/-- C10: an authorized status update stores exactly the caller-supplied
string with no membership check, so a status outside
pending/confirmed/completed/cancelled is reachable. -/
theorem C10_status_unchecked :
    (∀ (actor : User) (booking_id : Nat) (new_status : String) (db : DB)
        (booking : Booking) (driver : Driver),
        db.bookings.find? (fun b => b.id == booking_id) = some booking →
        db.drivers.find? (fun d => d.client_id == actor.id) = some driver →
        booking.driver_id = some (toString driver.id) →
        (update_booking_status actor booking_id new_status db).1
          = UpdateStatusResult.updated
        ∧ { booking with status := new_status }
            ∈ (update_booking_status actor booking_id new_status db).2.bookings)
    ∧ (∃ b ∈ (update_booking_status clientTwo 101 ("on-hold")
          sampleDB).2.bookings,
        b.status = "on-hold"
        ∧ b.status ∉ (["pending", "confirmed", "completed", "cancelled"]
            : List String)) := by
  constructor
  · intro actor booking_id new_status db booking driver hb hd hm
    have hv : update_booking_status actor booking_id new_status db
        = (UpdateStatusResult.updated,
           { db with bookings := db.bookings.map (fun b =>
               if b.id == booking.id then { b with status := new_status }
               else b) }) := by
      unfold update_booking_status
      rw [hb, hd]
      simp [hm]
    refine ⟨by rw [hv], ?_⟩
    rw [hv]
    simp only [List.mem_map]
    exact ⟨booking, List.mem_of_find?_eq_some hb, by simp⟩
  · have hv : update_booking_status clientTwo 101 ("on-hold") sampleDB
        = (UpdateStatusResult.updated,
           { sampleDB with bookings :=
               [bookingOne, { bookingTwo with status := "on-hold" }] }) := by
      rfl
    rw [hv]
    refine ⟨{ bookingTwo with status := "on-hold" }, ?_, rfl, by decide⟩
    exact List.mem_cons_of_mem _ (List.mem_cons_self _ _)

/-- Closed instantiation of `C10_status_unchecked`: the matching driver
stores an arbitrary status string. -/
theorem C10_status_unchecked_witness :
    (update_booking_status clientTwo 101 ("on-hold") sampleDB).1
      = UpdateStatusResult.updated
    ∧ { bookingTwo with status := "on-hold" }
        ∈ (update_booking_status clientTwo 101 ("on-hold")
            sampleDB).2.bookings :=
  C10_status_unchecked.1 clientTwo 101 ("on-hold") sampleDB bookingTwo
    driverThree (by rfl) (by rfl) (by rfl)
